import Mathlib

/-!
Verification development for the DeFi Guardian Swarm repository.

Part A embeds, directly from the Python sources, the pieces of the
repository that are ordinary executable code: the mock Solana on-chain
agent (src/python/scripts/solana_integration.py) and the agent tables of
src/python/scripts/run_defi_guardian_swarm.py.

Part B models the threat-aggregation and coordinated-decision policy
(Signal model, Normalizer, Coordinator) described in the specification.
In the repository that policy exists only as natural-language prompt text
handed to an LLM, so the definitions of Part B are modelled from the
specification's words; each such definition says so in its doc comment.

Floating-point confidences and dollar amounts are embedded as rational
numbers; the numeric checks of the specification are exact in ℚ.
-/

namespace DefiGuardian

/-! ## Part A: code embedded from the Python sources -/

/-- Embeds the dataclass SolanaDEXData of solana_integration.py:
pool address, token pair, liquidity, price impact and 24h volume. -/
structure SolanaDEXData where
  pool_address : String
  token_a : String
  token_b : String
  liquidity_usd : ℚ
  price_impact : ℚ
  volume_24h : ℚ
deriving DecidableEq, Repr

/-- Embeds the mock_pools list built in SolanaOnchainAgent.__init__
(solana_integration.py lines 76-87): the two built-in mock pools. -/
def mock_pools : List SolanaDEXData :=
  [ { pool_address := "9WzDXwBbmkg8ZTbNMqUxvQRAyrZzDsGYdLVL9zYtAWWM",
      token_a := "SOL", token_b := "USDC",
      liquidity_usd := 1250000 + 50/100, price_impact := 2/100,
      volume_24h := 850000 + 25/100 },
    { pool_address := "2wT8Yq49kHgDzXuPxZSaeLaH1qbmGXtEyPy64bL7aD3c",
      token_a := "SOL", token_b := "RAY",
      liquidity_usd := 890000 + 75/100, price_impact := 15/100,
      volume_24h := 450000 + 80/100 } ]

/-- Embeds SolanaOnchainAgent.get_dex_pool_data (solana_integration.py
lines 137-157): scan the mock pools for a matching address; if none
matches, return the default SOL/USDC mock pool carrying the queried
address.  The Python return type is Optional, embedded as Option. -/
def get_dex_pool_data (pool_address : String) : Option SolanaDEXData :=
  match mock_pools.find? (fun p => p.pool_address == pool_address) with
  | some p => some p
  | none =>
    some { pool_address := pool_address,
           token_a := "SOL", token_b := "USDC",
           liquidity_usd := 950000 + 30/100, price_impact := 8/100,
           volume_24h := 650000 + 40/100 }

/-- Embeds the dictionary returned by
SolanaOnchainAgent.check_transaction_risk (solana_integration.py lines
159-179).  The analysis_timestamp field is datetime.utcnow() in Python;
it is embedded as an explicit now parameter. -/
structure TxRiskAnalysis where
  signature : String
  mev_detected : Bool
  sandwich_attack : Bool
  frontrunning : Bool
  price_impact : ℚ
  risk_level : String
  confidence : ℚ
  analysis_timestamp : String
deriving DecidableEq, Repr

/-- Embeds SolanaOnchainAgent.check_transaction_risk: a constant mock
analysis that echoes the queried signature and the current time. -/
def check_transaction_risk (now : String) (transaction_signature : String) :
    TxRiskAnalysis :=
  { signature := transaction_signature,
    mev_detected := false,
    sandwich_attack := false,
    frontrunning := false,
    price_impact := 2/100,
    risk_level := "LOW",
    confidence := 95/100,
    analysis_timestamp := now }

/-- Embeds juliaos.ToolBlueprint as used in run_defi_guardian_swarm.py:
every agent there carries the single tool named llm_chat with empty
config, so only the name is retained. -/
structure ToolBlueprint where
  name : String
deriving DecidableEq, Repr

/-- Embeds juliaos.StrategyBlueprint: the strategy name together with
the specialization entry of its config dict (the remaining config
entries are free-form demo data that no claim touches). -/
structure StrategyBlueprint where
  name : String
  specialization : String
deriving DecidableEq, Repr

/-- Embeds juliaos.TriggerConfig: all agents use type webhook with empty
params. -/
structure TriggerConfig where
  type : String
deriving DecidableEq, Repr

/-- Embeds juliaos.AgentBlueprint: tools, strategy and trigger. -/
structure AgentBlueprint where
  tools : List ToolBlueprint
  strategy : StrategyBlueprint
  trigger : TriggerConfig
deriving DecidableEq, Repr

/-- Shorthand for the blueprint shape shared by every agent of
run_defi_guardian_swarm.py: one llm_chat tool, a webhook trigger, and a
strategy with the given name and specialization. -/
def mkBlueprint (strategyName specialization : String) : AgentBlueprint :=
  { tools := [{ name := "llm_chat" }],
    strategy := { name := strategyName, specialization := specialization },
    trigger := { type := "webhook" } }

/-- Embeds the constant COORDINATOR_AGENT_ID of
run_defi_guardian_swarm.py line 59. -/
def COORDINATOR_AGENT_ID : String := "defi-coordinator-agent"

/-- Embeds create_risk_management_agents (run_defi_guardian_swarm.py
lines 61-138): three (id, name, description, blueprint) tuples. -/
def create_risk_management_agents :
    List (String × String × String × AgentBlueprint) :=
  [ ("portfolio-risk-analyzer", "Portfolio Risk Analyzer",
     "Analyzes portfolio risk and concentration",
     mkBlueprint "portfolio_risk_analysis" "portfolio_risk_assessment"),
    ("liquidity-monitor", "Liquidity Monitor",
     "Monitors liquidity and slippage risks",
     mkBlueprint "liquidity_monitoring" "liquidity_risk_assessment"),
    ("volatility-tracker", "Volatility Tracker",
     "Tracks market volatility and price risks",
     mkBlueprint "volatility_analysis" "market_volatility_tracking") ]

/-- Embeds create_mev_protection_agents (run_defi_guardian_swarm.py
lines 140-213): three (id, name, description, blueprint) tuples. -/
def create_mev_protection_agents :
    List (String × String × String × AgentBlueprint) :=
  [ ("mempool-scanner", "Mempool Scanner",
     "Scans mempool for MEV threats",
     mkBlueprint "mempool_monitoring" "mempool_threat_detection"),
    ("sandwich-detector", "Sandwich Attack Detector",
     "Detects and prevents sandwich attacks",
     mkBlueprint "sandwich_detection" "sandwich_attack_prevention"),
    ("tx-optimizer", "Transaction Optimizer",
     "Optimizes transactions for MEV protection",
     mkBlueprint "transaction_optimization" "mev_resistant_execution") ]

/-- Embeds create_governance_agents (run_defi_guardian_swarm.py lines
215-288): three (id, name, description, blueprint) tuples. -/
def create_governance_agents :
    List (String × String × String × AgentBlueprint) :=
  [ ("proposal-analyzer", "Proposal Analyzer",
     "Analyzes DAO proposals for impact and risks",
     mkBlueprint "proposal_analysis" "dao_proposal_evaluation"),
    ("sentiment-monitor", "Community Sentiment Monitor",
     "Monitors community sentiment and engagement",
     mkBlueprint "sentiment_monitoring" "community_sentiment_analysis"),
    ("voting-optimizer", "Voting Strategy Optimizer",
     "Optimizes voting strategies for maximum impact",
     mkBlueprint "voting_optimization" "optimal_voting_strategy") ]

/-- The nine detector agent ids of the three swarms, in creation order,
followed by the coordinator id, mirroring create_and_deploy_agents. -/
def all_agent_ids : List String :=
  (create_risk_management_agents ++ create_mev_protection_agents ++
    create_governance_agents).map (fun t => t.1) ++ [COORDINATOR_AGENT_ID]

/-! ## Part B: the threat-aggregation policy, modelled from the spec

The repository's coordinator is a natural-language prompt handed to an
LLM (demonstrate_coordination in run_defi_guardian_swarm.py); the
deterministic Signal/Normalizer/Coordinator policy below follows the
specification's sections 3 and 4. -/

/-- Modelled from the spec: the protection domain enum of section 3,
missing from src/ as executable code. -/
inductive Domain where
  | RISK
  | MEV
  | GOVERNANCE
deriving DecidableEq, Repr

/-- Modelled from the spec: the ordered severity enum of the canonical
Signal record (section 3), missing from src/ as executable code. -/
inductive Severity where
  | LOW
  | MEDIUM
  | HIGH
  | CRITICAL
deriving DecidableEq, Repr

/-- Modelled from the spec: the ActionKind enum of section 3, missing
from src/ as executable code (the decision_types strings of the
coordinator config name the same six actions). -/
inductive ActionKind where
  | EMERGENCY_STOP
  | BLOCK_TRANSACTION
  | REBALANCE
  | ALERT_USER
  | VOTE_PROPOSAL
  | UPDATE_STRATEGY
deriving DecidableEq, Repr

/-- Modelled from the spec: a RawFinding (section 3), the unstructured
detector output: producer identity, a free-form severity hint, a
confidence, a rationale and proposed actions, missing from src/ as
executable code. -/
structure RawFinding where
  detector_id : String
  snapshot_id : String
  domain : Domain
  raw_severity : String
  confidence : ℚ
  rationale : String
  proposed_actions : List ActionKind
  timestamp : ℕ
deriving DecidableEq, Repr

/-- Modelled from the spec: the canonical Signal record of section 3,
missing from src/ as executable code.  The id is derived from
(detector_id, snapshot_id). -/
structure Signal where
  id : String
  domain : Domain
  severity : Severity
  confidence : ℚ
  proposed_actions : List ActionKind
  timestamp : ℕ
deriving DecidableEq, Repr

/-- Modelled from the spec: severity_rank maps CRITICAL=4 down to LOW=1
(section 4.3 step 2). -/
def sevRank : Severity → ℕ
  | .LOW => 1
  | .MEDIUM => 2
  | .HIGH => 3
  | .CRITICAL => 4

/-- Modelled from the spec: the default domain_priority_weight table,
MEV > RISK > GOVERNANCE (section 4.3 step 2). -/
def domainWeight : Domain → ℕ
  | .MEV => 3
  | .RISK => 2
  | .GOVERNANCE => 1

/-- Modelled from the spec: the default suppression threshold 0.5
(sections 3 and 6). -/
def defaultSuppressionThreshold : ℚ := 5/10

/-- Modelled from the spec: the default consensus threshold 0.7
(sections 4.3 step 5 and 6); the same value appears in the coordinator
agent config of run_defi_guardian_swarm.py line 314. -/
def defaultConsensusThreshold : ℚ := 7/10

/-- Modelled from the spec: the fixed lookup table mapping provider
severity vocabulary to the canonical enum (section 4.2), missing from
src/ as executable code. -/
def severityTable : List (String × Severity) :=
  [("LOW", .LOW), ("MEDIUM", .MEDIUM), ("HIGH", .HIGH), ("CRITICAL", .CRITICAL)]

/-- Table lookup for the canonical severity of a raw severity string. -/
def lookupSeverity (s : String) : Option Severity :=
  (severityTable.find? (fun p => p.1 == s)).map Prod.snd

/-- Modelled from the spec: normalize(raw) -> Signal | null (section
4.2), missing from src/ as executable code.  An unmapped raw severity
defaults to MEDIUM with a confidence penalty of 0.1; a finding whose
resulting confidence is below the suppression threshold is dropped
(none), not an error. -/
def normalize (thr : ℚ) (raw : RawFinding) : Option Signal :=
  let sc : Severity × ℚ :=
    match lookupSeverity raw.raw_severity with
    | some sev => (sev, raw.confidence)
    | none => (.MEDIUM, raw.confidence - 1/10)
  if sc.2 < thr then none
  else some
    { id := raw.detector_id ++ ":" ++ raw.snapshot_id,
      domain := raw.domain,
      severity := sc.1,
      confidence := sc.2,
      proposed_actions := raw.proposed_actions,
      timestamp := raw.timestamp }

/-- Normalize a whole cycle's raw findings, dropping suppressed ones. -/
def normalizeAll (thr : ℚ) (raws : List RawFinding) : List Signal :=
  raws.filterMap (normalize thr)

/-- Modelled from the spec: a merged recommendation produced by the
Coordinator's merge step (section 4.3 step 1), carrying the ranking key
data of step 2, missing from src/ as executable code. -/
structure Recommendation where
  action : ActionKind
  severity : Severity
  confidence : ℚ
  weight : ℕ
  timestamp : ℕ
  justification : List String
deriving Repr

/-- The entry shape of an ActionPlan (spec section 3): an action, its
1-based priority rank, and the justifying Signal ids. -/
structure PlanEntry where
  action : ActionKind
  priority_rank : ℕ
  justification : List String
deriving DecidableEq, Repr

/-- Modelled from the spec: the ActionPlan of section 3 together with
the advisory flag of section 4.3 step 5, missing from src/ as
executable code. -/
structure ActionPlan where
  entries : List PlanEntry
  advisory : Bool
deriving Repr

/-- The signals of a cycle proposing a given action kind. -/
def signalsFor (k : ActionKind) (sigs : List Signal) : List Signal :=
  sigs.filter (fun s => k ∈ s.proposed_actions)

/-- Maximum of two severities in the LOW < MEDIUM < HIGH < CRITICAL
order. -/
def maxSev (a b : Severity) : Severity :=
  if sevRank a ≤ sevRank b then b else a

/-- Maximum severity over a list of signals (LOW for an empty list). -/
def maxSeverity (ss : List Signal) : Severity :=
  ss.foldl (fun acc s => maxSev acc s.severity) .LOW

/-- Modelled from the spec: the probabilistic-OR merge of confidences,
1 minus the product of (1 - c_i) (section 4.3 step 1), missing from
src/ as executable code. -/
def mergedConfidence (cs : List ℚ) : ℚ :=
  1 - (cs.map (fun c => 1 - c)).prod

/-- Maximum domain priority weight over a list of signals. -/
def maxWeight (ss : List Signal) : ℕ :=
  (ss.map (fun s => domainWeight s.domain)).foldl max 0

/-- Earliest timestamp over a list of signals (0 for an empty list). -/
def minTimestamp : List Signal → ℕ
  | [] => 0
  | s :: ss => ss.foldl (fun acc x => min acc x.timestamp) s.timestamp

/-- Modelled from the spec: the merge step for one action kind (section
4.3 step 1), missing from src/ as executable code.  If no signal of the
cycle proposes the kind there is nothing to merge; otherwise severity is
the maximum of the inputs, confidence is the probabilistic OR, and the
justification is the list of source Signal ids. -/
def mergeFor (k : ActionKind) (sigs : List Signal) : Option Recommendation :=
  let ss := signalsFor k sigs
  if ss.isEmpty then none
  else some
    { action := k,
      severity := maxSeverity ss,
      confidence := mergedConfidence (ss.map Signal.confidence),
      weight := maxWeight ss,
      timestamp := minTimestamp ss,
      justification := ss.map Signal.id }

/-- The six action kinds in a fixed enumeration order. -/
def allActionKinds : List ActionKind :=
  [.EMERGENCY_STOP, .BLOCK_TRANSACTION, .REBALANCE,
   .ALERT_USER, .VOTE_PROPOSAL, .UPDATE_STRATEGY]

/-- Modelled from the spec: the whole merge step, one recommendation
per proposed action kind (section 4.3 step 1). -/
def mergeStep (sigs : List Signal) : List Recommendation :=
  allActionKinds.filterMap (fun k => mergeFor k sigs)

/-- Modelled from the spec: the priority order of section 4.3 step 2,
severity rank, then confidence, then domain weight, all descending,
with ties broken by earliest timestamp. -/
def recBefore (a b : Recommendation) : Bool :=
  if sevRank a.severity = sevRank b.severity then
    if a.confidence = b.confidence then
      if a.weight = b.weight then a.timestamp ≤ b.timestamp
      else decide (b.weight < a.weight)
    else decide (b.confidence < a.confidence)
  else decide (sevRank b.severity < sevRank a.severity)

/-- Modelled from the spec: the ranking step (section 4.3 step 2),
a stable sort of the merged recommendations by priority. -/
def rankStep (rs : List Recommendation) : List Recommendation :=
  List.insertionSort (fun a b => recBefore a b = true) rs

/-- Modelled from the spec: the fixed conflict precedence table
(sections 4.3 step 3 and 6): EMERGENCY_STOP supersedes and cancels
REBALANCE for the same cycle. -/
def conflictPrecedence : ActionKind → List ActionKind
  | .EMERGENCY_STOP => [.REBALANCE]
  | _ => []

/-- Modelled from the spec: conflict resolution over the ranked list
(section 4.3 step 3), missing from src/ as executable code.  The
highest-ranked surviving recommendation drops every later conflicting
recommendation and absorbs its justification, then the remainder is
resolved.  Structural recursion over a fuel bound set to the list
length. -/
def resolveConflictsFuel : ℕ → List Recommendation → List Recommendation
  | _, [] => []
  | 0, _ :: _ => []
  | n + 1, r :: rest =>
    let dropped := rest.filter (fun x => x.action ∈ conflictPrecedence r.action)
    let kept := rest.filter (fun x => x.action ∉ conflictPrecedence r.action)
    { r with justification :=
        r.justification ++ (dropped.map Recommendation.justification).flatten }
      :: resolveConflictsFuel n kept

/-- Conflict resolution with adequate fuel. -/
def resolveConflicts (rs : List Recommendation) : List Recommendation :=
  resolveConflictsFuel rs.length rs

/-- The ranked, conflict-resolved recommendations of a cycle. -/
def resolvedRecs (sigs : List Signal) : List Recommendation :=
  resolveConflicts (rankStep (mergeStep sigs))

/-- Number the surviving recommendations by final rank (section 4.3
step 4), starting at the given rank. -/
def numberEntries : ℕ → List Recommendation → List PlanEntry
  | _, [] => []
  | n, r :: rs =>
    { action := r.action, priority_rank := n, justification := r.justification }
      :: numberEntries (n + 1) rs

/-- Modelled from the spec: the Coordinator fold of a cycle's signals
into an ActionPlan (section 4.3), missing from src/ as executable code.
The plan is advisory when the highest-ranked CRITICAL or HIGH item has
aggregate confidence below the consensus threshold (step 5); the plan
is emitted either way. -/
def coordinate (cthr : ℚ) (sigs : List Signal) : ActionPlan :=
  let resolved := resolvedRecs sigs
  { entries := numberEntries 1 resolved,
    advisory :=
      match resolved.find? (fun r => decide (3 ≤ sevRank r.severity)) with
      | some r => decide (r.confidence < cthr)
      | none => false }

/-- The whole per-cycle pipeline of the spec's data flow: normalize the
raw findings, suppress the weak ones, and coordinate the survivors. -/
def runCycle (thr cthr : ℚ) (raws : List RawFinding) : ActionPlan :=
  coordinate cthr (normalizeAll thr raws)

/-- Modelled from the spec: a Detector (sections 3 and 4.1), whose
evaluation may fail (exception or timeout), embedded as an Except
result, missing from src/ as executable code. -/
structure Snapshot where
  id : String
  payload : String
deriving DecidableEq, Repr

/-- Modelled from the spec: a Detector record with its fallible
evaluate function (sections 3 and 4.1). -/
structure Detector where
  id : String
  domain : Domain
  specialization : String
  evaluate : Snapshot → Except String RawFinding

/-- Modelled from the spec: running one detector under the Domain
Swarm's failure policy (section 4.1): a failure is caught and converted
into a RawFinding with severity UNKNOWN and the error recorded in the
rationale. -/
def runDetector (snap : Snapshot) (d : Detector) : RawFinding :=
  match d.evaluate snap with
  | .ok f => f
  | .error e =>
    { detector_id := d.id,
      snapshot_id := snap.id,
      domain := d.domain,
      raw_severity := "UNKNOWN",
      confidence := 0,
      rationale := e,
      proposed_actions := [],
      timestamp := 0 }

/-- Modelled from the spec: a Domain Swarm's run over a snapshot
(section 4.1), invoking every member detector. -/
def detectorsRun (snap : Snapshot) (ds : List Detector) : List RawFinding :=
  ds.map (runDetector snap)

/-- Modelled from the spec: a Domain Swarm groups detectors by domain
(section 2). -/
structure DomainSwarm where
  domain : Domain
  detectors : List Detector

/-- A swarm's contribution to one cycle. -/
def swarmRun (snap : Snapshot) (sw : DomainSwarm) : List RawFinding :=
  detectorsRun snap sw.detectors

/-- The unioned raw findings of all domain swarms for one cycle. -/
def cycleFindings (snap : Snapshot) (sws : List DomainSwarm) : List RawFinding :=
  (sws.map (swarmRun snap)).flatten

/-! ## Fixtures: concrete cycle data used by witnesses and checks -/

/-- A fixture snapshot. -/
def snap0 : Snapshot := { id := "snap-0", payload := "" }

/-- A fixture detector whose evaluation always fails. -/
def failingDetector : Detector :=
  { id := "portfolio-risk-analyzer",
    domain := .RISK,
    specialization := "portfolio_risk_assessment",
    evaluate := fun _ => .error "timeout" }

/-- A fixture raw finding with a severity string outside the lookup
table. -/
def rawGlitch : RawFinding :=
  { detector_id := "portfolio-risk-analyzer", snapshot_id := "snap-0",
    domain := .RISK, raw_severity := "GLITCH", confidence := 9/10,
    rationale := "free text from the scorer",
    proposed_actions := [.ALERT_USER], timestamp := 5 }

/-- A fixture raw finding with confidence 0.3, below the default
suppression threshold. -/
def rawWeak : RawFinding :=
  { detector_id := "liquidity-monitor", snapshot_id := "snap-0",
    domain := .RISK, raw_severity := "LOW", confidence := 3/10,
    rationale := "weak evidence",
    proposed_actions := [.ALERT_USER], timestamp := 7 }

/-- The RISK fixture signal of the spec's conflict test: it proposes
REBALANCE with severity HIGH and confidence 0.9. -/
def sigRisk (i : String) (t : ℕ) : Signal :=
  { id := i, domain := .RISK, severity := .HIGH, confidence := 9/10,
    proposed_actions := [.REBALANCE], timestamp := t }

/-- The MEV fixture signal of the spec's conflict test: it proposes
EMERGENCY_STOP with severity CRITICAL and confidence 0.95. -/
def sigMev (i : String) (t : ℕ) : Signal :=
  { id := i, domain := .MEV, severity := .CRITICAL, confidence := 95/100,
    proposed_actions := [.EMERGENCY_STOP], timestamp := t }

/-- An extra CRITICAL signal with confidence 0.99 proposing
BLOCK_TRANSACTION, used to outrank the fixture pair. -/
def sigMev99 : Signal :=
  { id := "mev-2:snap-1", domain := .MEV, severity := .CRITICAL,
    confidence := 99/100,
    proposed_actions := [.BLOCK_TRANSACTION], timestamp := 0 }

/-- A cycle containing both fixture signals of the conflict test plus
the stronger BLOCK_TRANSACTION signal. -/
def cexCycle : List Signal :=
  [sigRisk "risk-1:snap-1" 0, sigMev "mev-1:snap-1" 0, sigMev99]

/-- A single CRITICAL signal proposing EMERGENCY_STOP with the given
confidence. -/
def sigCrit (c : ℚ) : Signal :=
  { id := "mev-1:snap-1", domain := .MEV, severity := .CRITICAL,
    confidence := c, proposed_actions := [.EMERGENCY_STOP], timestamp := 0 }

/-- The recommendation the coordinator derives from the single signal
sigCrit (6/10). -/
def recCrit06 : Recommendation :=
  { action := .EMERGENCY_STOP, severity := .CRITICAL,
    confidence := mergedConfidence [6/10], weight := 3, timestamp := 0,
    justification := ["mev-1:snap-1"] }

/-- The recommendation the coordinator derives from the single signal
sigCrit (8/10). -/
def recCrit08 : Recommendation :=
  { action := .EMERGENCY_STOP, severity := .CRITICAL,
    confidence := mergedConfidence [8/10], weight := 3, timestamp := 0,
    justification := ["mev-1:snap-1"] }

/-- The merged EMERGENCY_STOP recommendation of the counterexample
cycle. -/
def recMev95 : Recommendation :=
  { action := .EMERGENCY_STOP, severity := .CRITICAL,
    confidence := mergedConfidence [95/100], weight := 3, timestamp := 0,
    justification := ["mev-1:snap-1"] }

/-- The merged BLOCK_TRANSACTION recommendation of the counterexample
cycle. -/
def recMev99 : Recommendation :=
  { action := .BLOCK_TRANSACTION, severity := .CRITICAL,
    confidence := mergedConfidence [99/100], weight := 3, timestamp := 0,
    justification := ["mev-2:snap-1"] }

/-- The merged REBALANCE recommendation of the counterexample
cycle. -/
def recRisk90 : Recommendation :=
  { action := .REBALANCE, severity := .HIGH,
    confidence := mergedConfidence [9/10], weight := 2, timestamp := 0,
    justification := ["risk-1:snap-1"] }

/-! ## Theorems -/

/-- C8: each of the three agent-creation functions returns exactly
three (id, name, description, blueprint) tuples, and the nine ids
together with the coordinator id defi-coordinator-agent are pairwise
distinct strings. -/
theorem agent_ids_unique :
    create_risk_management_agents.length = 3 ∧
    create_mev_protection_agents.length = 3 ∧
    create_governance_agents.length = 3 ∧
    all_agent_ids.Nodup := by
  refine ⟨rfl, rfl, rfl, ?_⟩
  decide

/-- C9: for every pool address, get_dex_pool_data returns a value (never
none, despite the Optional type) and the returned record carries exactly
the queried pool address. -/
theorem get_dex_pool_data_total :
    ∀ pool_address : String, ∃ d : SolanaDEXData,
      get_dex_pool_data pool_address = some d ∧
      d.pool_address = pool_address := by
  intro addr
  unfold get_dex_pool_data
  cases h : mock_pools.find? (fun p => p.pool_address == addr) with
  | none => exact ⟨_, rfl, rfl⟩
  | some p =>
    refine ⟨p, rfl, ?_⟩
    have hp := List.find?_some h
    simpa using hp

/-- C10: check_transaction_risk echoes the queried signature and
otherwise returns the constant mock analysis: no MEV, no sandwich
attack, no frontrunning, price impact 0.02, risk level LOW, confidence
0.95, independent of the input signature. -/
theorem check_transaction_risk_constant :
    ∀ now transaction_signature : String,
      (check_transaction_risk now transaction_signature).signature =
        transaction_signature ∧
      (check_transaction_risk now transaction_signature).mev_detected = false ∧
      (check_transaction_risk now transaction_signature).sandwich_attack = false ∧
      (check_transaction_risk now transaction_signature).frontrunning = false ∧
      (check_transaction_risk now transaction_signature).price_impact = 2/100 ∧
      (check_transaction_risk now transaction_signature).risk_level = "LOW" ∧
      (check_transaction_risk now transaction_signature).confidence = 95/100 :=
  fun _ _ => ⟨rfl, rfl, rfl, rfl, rfl, rfl, rfl⟩

/-- C6: a detector failure is caught and converted into a RawFinding
with severity UNKNOWN that records the error and the failing detector,
and one detector's result slot never affects the findings contributed
by sibling detectors of the same swarm or by other domain swarms. -/
theorem detector_failure_isolated :
    (∀ (snap : Snapshot) (d : Detector) (e : String),
        d.evaluate snap = .error e →
        (runDetector snap d).raw_severity = "UNKNOWN" ∧
        (runDetector snap d).rationale = e ∧
        (runDetector snap d).detector_id = d.id ∧
        (runDetector snap d).snapshot_id = snap.id) ∧
    (∀ (snap : Snapshot) (ds₁ : List Detector) (d : Detector)
        (ds₂ : List Detector),
        detectorsRun snap (ds₁ ++ d :: ds₂) =
          detectorsRun snap ds₁ ++
            runDetector snap d :: detectorsRun snap ds₂) ∧
    (∀ (snap : Snapshot) (sws₁ : List DomainSwarm) (sw : DomainSwarm)
        (sws₂ : List DomainSwarm),
        cycleFindings snap (sws₁ ++ sw :: sws₂) =
          cycleFindings snap sws₁ ++ swarmRun snap sw ++
            cycleFindings snap sws₂) := by
  refine ⟨?_, ?_, ?_⟩
  · intro snap d e h
    simp [runDetector, h]
  · intro snap ds₁ d ds₂
    simp [detectorsRun]
  · intro snap sws₁ sw sws₂
    simp [cycleFindings]

/-- Witness for C6: a concrete always-failing detector is converted to
an UNKNOWN finding recording the error, on the fixture snapshot. -/
theorem detector_failure_isolated_witness :
    (runDetector snap0 failingDetector).raw_severity = "UNKNOWN" ∧
    (runDetector snap0 failingDetector).rationale = "timeout" ∧
    (runDetector snap0 failingDetector).detector_id = failingDetector.id ∧
    (runDetector snap0 failingDetector).snapshot_id = snap0.id :=
  detector_failure_isolated.1 snap0 failingDetector "timeout" rfl

/-- C7: normalization is a total function, and for a raw finding whose
severity string is not in the fixed lookup table it applies the
default-degrade rule: canonical severity MEDIUM and the confidence
reduced by 0.1, the result then being suppressed or kept against the
threshold as usual, never an error. -/
theorem normalize_default_degrade :
    ∀ (thr : ℚ) (raw : RawFinding),
      lookupSeverity raw.raw_severity = none →
      (raw.confidence - 1/10 < thr → normalize thr raw = none) ∧
      (thr ≤ raw.confidence - 1/10 →
        normalize thr raw = some
          { id := raw.detector_id ++ ":" ++ raw.snapshot_id,
            domain := raw.domain,
            severity := .MEDIUM,
            confidence := raw.confidence - 1/10,
            proposed_actions := raw.proposed_actions,
            timestamp := raw.timestamp }) := by
  intro thr raw h
  constructor
  · intro hlt
    simp [normalize, h]
    linarith
  · intro hge
    simp [normalize, h]
    linarith

/-- Witness for C7: the fixture finding with severity string GLITCH and
confidence 0.9 normalizes to a MEDIUM signal of confidence 0.8 under
the default threshold. -/
theorem normalize_default_degrade_witness :
    normalize defaultSuppressionThreshold rawGlitch = some
      { id := rawGlitch.detector_id ++ ":" ++ rawGlitch.snapshot_id,
        domain := rawGlitch.domain,
        severity := .MEDIUM,
        confidence := rawGlitch.confidence - 1/10,
        proposed_actions := rawGlitch.proposed_actions,
        timestamp := rawGlitch.timestamp } :=
  (normalize_default_degrade defaultSuppressionThreshold rawGlitch rfl).2
    (by norm_num [rawGlitch, defaultSuppressionThreshold])

/-- A successful merge for an action kind is exactly the record built
from the signals proposing that kind. -/
theorem mergeFor_eq_some {k : ActionKind} {sigs : List Signal}
    {r : Recommendation} (h : mergeFor k sigs = some r) :
    r = { action := k,
          severity := maxSeverity (signalsFor k sigs),
          confidence :=
            mergedConfidence ((signalsFor k sigs).map Signal.confidence),
          weight := maxWeight (signalsFor k sigs),
          timestamp := minTimestamp (signalsFor k sigs),
          justification := (signalsFor k sigs).map Signal.id } := by
  unfold mergeFor at h
  by_cases he : (signalsFor k sigs).isEmpty
  · simp [he] at h
  · simp [he] at h
    exact h.symm

/-- Every member of the merge step arises from mergeFor at some kind. -/
theorem mem_mergeStep {sigs : List Signal} {r : Recommendation}
    (h : r ∈ mergeStep sigs) : ∃ k, mergeFor k sigs = some r := by
  rcases List.mem_filterMap.mp h with ⟨k, _, hk⟩
  exact ⟨k, hk⟩

/-- C1: when one or more Signals of a cycle propose the same ActionKind
the Coordinator merges them into a single recommendation whose severity
is the maximum of the input severities, whose confidence is the
probabilistic OR 1 - prod of (1 - c_i), and whose justification lists
the source Signal ids; the exact numeric check with confidences 0.6 and
0.5 gives 0.8; and a corroborating confidence never decreases the
merged confidence. -/
theorem merge_probabilistic_or :
    (∀ (k : ActionKind) (sigs : List Signal),
        (∃ s ∈ sigs, k ∈ s.proposed_actions) →
        ∃ r ∈ mergeStep sigs,
          r.action = k ∧
          r.severity = maxSeverity (signalsFor k sigs) ∧
          r.confidence =
            mergedConfidence ((signalsFor k sigs).map Signal.confidence) ∧
          r.justification = (signalsFor k sigs).map Signal.id) ∧
    mergedConfidence [6/10, 5/10] = 8/10 ∧
    (∀ (c : ℚ) (cs : List ℚ), 0 ≤ c → (∀ x ∈ cs, x ≤ 1) →
        mergedConfidence cs ≤ mergedConfidence (c :: cs)) := by
  refine ⟨?_, ?_, ?_⟩
  · intro k sigs hs
    rcases hs with ⟨s, hs, hk⟩
    have hmem : s ∈ signalsFor k sigs := by
      simp [signalsFor, List.mem_filter, hs, hk]
    have hne : ¬ (signalsFor k sigs).isEmpty := by
      cases hss : signalsFor k sigs with
      | nil => rw [hss] at hmem; cases hmem
      | cons a l => simp [hss]
    have hsome : mergeFor k sigs = some
        { action := k,
          severity := maxSeverity (signalsFor k sigs),
          confidence :=
            mergedConfidence ((signalsFor k sigs).map Signal.confidence),
          weight := maxWeight (signalsFor k sigs),
          timestamp := minTimestamp (signalsFor k sigs),
          justification := (signalsFor k sigs).map Signal.id } := by
      unfold mergeFor
      simp [hne]
    refine ⟨{ action := k,
              severity := maxSeverity (signalsFor k sigs),
              confidence :=
                mergedConfidence ((signalsFor k sigs).map Signal.confidence),
              weight := maxWeight (signalsFor k sigs),
              timestamp := minTimestamp (signalsFor k sigs),
              justification := (signalsFor k sigs).map Signal.id },
            ?_, rfl, rfl, rfl, rfl⟩
    exact List.mem_filterMap.mpr ⟨k, by cases k <;> simp [allActionKinds], hsome⟩
  · simp [mergedConfidence]
    norm_num
  · intro c cs hc hcs
    have hP : 0 ≤ (cs.map (fun x => 1 - x)).prod := by
      apply List.prod_nonneg
      intro a ha
      rcases List.mem_map.mp ha with ⟨x, hx, rfl⟩
      have := hcs x hx
      linarith
    have hmul : (1 - c) * (cs.map (fun x => 1 - x)).prod ≤
        (cs.map (fun x => 1 - x)).prod :=
      mul_le_of_le_one_left hP (by linarith)
    simp only [mergedConfidence, List.map_cons, List.prod_cons]
    linarith

/-- Witness for C1: a corroborating signal of confidence one half does
not decrease the merged confidence of the empty set. -/
theorem merge_probabilistic_or_witness :
    mergedConfidence [] ≤ mergedConfidence [1/2] :=
  merge_probabilistic_or.2.2 (1/2) [] (by norm_num) (by simp)

/-- A finding that survives normalization had confidence at least the
suppression threshold. -/
theorem normalize_some_conf {thr : ℚ} {raw : RawFinding} {s : Signal}
    (h : normalize thr raw = some s) : thr ≤ raw.confidence := by
  unfold normalize at h
  cases hl : lookupSeverity raw.raw_severity with
  | some sev =>
    rw [hl] at h
    simp at h
    exact h.1
  | none =>
    rw [hl] at h
    simp at h
    linarith [h.1]

/-- Conflict resolution only reshuffles justification ids that were
already present in the input recommendations. -/
theorem resolveConflictsFuel_justification (P : String → Prop) :
    ∀ (n : ℕ) (l : List Recommendation),
      (∀ r ∈ l, ∀ i ∈ r.justification, P i) →
      ∀ r ∈ resolveConflictsFuel n l, ∀ i ∈ r.justification, P i := by
  intro n
  induction n with
  | zero =>
    intro l H r hr
    cases l with
    | nil => simp [resolveConflictsFuel] at hr
    | cons a rest => simp [resolveConflictsFuel] at hr
  | succ n ih =>
    intro l H r hr
    cases l with
    | nil => simp [resolveConflictsFuel] at hr
    | cons a rest =>
      simp only [resolveConflictsFuel] at hr
      rcases List.mem_cons.mp hr with h1 | h2
      · subst h1
        intro i hi
        simp only [List.mem_append] at hi
        rcases hi with hi | hi
        · exact H a (List.mem_cons_self a rest) i hi
        · rcases List.mem_flatten.mp hi with ⟨j, hj, hij⟩
          rcases List.mem_map.mp hj with ⟨x, hx, rfl⟩
          exact H x (List.mem_cons_of_mem a (List.mem_of_mem_filter hx)) i hij
      · refine ih _ ?_ r h2
        intro x hx i hi
        exact H x (List.mem_cons_of_mem a (List.mem_of_mem_filter hx)) i hi

/-- Each emitted plan entry copies the action and justification of a
resolved recommendation. -/
theorem mem_numberEntries :
    ∀ (l : List Recommendation) (n : ℕ) (e : PlanEntry),
      e ∈ numberEntries n l →
      ∃ r ∈ l, e.action = r.action ∧ e.justification = r.justification := by
  intro l
  induction l with
  | nil =>
    intro n e he
    simp [numberEntries] at he
  | cons a l ih =>
    intro n e he
    simp only [numberEntries, List.mem_cons] at he
    rcases he with rfl | he
    · exact ⟨a, List.mem_cons_self a l, rfl, rfl⟩
    · rcases ih (n + 1) e he with ⟨r, hr, h1, h2⟩
      exact ⟨r, List.mem_cons_of_mem a hr, h1, h2⟩

/-- Every justification id of an emitted plan names a signal of the
cycle the coordinator consumed. -/
theorem coordinate_justification :
    ∀ (cthr : ℚ) (sigs : List Signal) (e : PlanEntry),
      e ∈ (coordinate cthr sigs).entries →
      ∀ i ∈ e.justification, ∃ s ∈ sigs, s.id = i := by
  intro cthr sigs e he i hi
  have he' : e ∈ numberEntries 1 (resolvedRecs sigs) := he
  rcases mem_numberEntries _ _ _ he' with ⟨r, hr, _, hj⟩
  rw [hj] at hi
  have base : ∀ x ∈ rankStep (mergeStep sigs),
      ∀ i' ∈ x.justification, ∃ s ∈ sigs, s.id = i' := by
    intro x hx i' hi'
    have hx' : x ∈ mergeStep sigs :=
      (List.perm_insertionSort _ (mergeStep sigs)).mem_iff.mp hx
    rcases mem_mergeStep hx' with ⟨k, hk⟩
    have hxr := mergeFor_eq_some hk
    rw [hxr] at hi'
    simp only at hi'
    rcases List.mem_map.mp hi' with ⟨s, hs, rfl⟩
    exact ⟨s, List.mem_of_mem_filter hs, rfl⟩
  exact resolveConflictsFuel_justification _ _ _ base r hr i hi

/-- C5: a raw finding whose confidence is below the suppression
threshold is dropped by normalization (none, not an error), and every
justification id of any emitted plan traces back to a finding that
survived normalization, hence had confidence at least the threshold —
so a suppressed finding never reaches the coordinator and never appears
in any merged recommendation. -/
theorem suppression_threshold_enforced :
    (∀ (thr : ℚ) (raw : RawFinding), raw.confidence < thr →
      normalize thr raw = none) ∧
    (∀ (thr cthr : ℚ) (raws : List RawFinding) (e : PlanEntry),
      e ∈ (runCycle thr cthr raws).entries → ∀ i ∈ e.justification,
        ∃ raw ∈ raws, thr ≤ raw.confidence ∧
          ∃ s, normalize thr raw = some s ∧ s.id = i) := by
  constructor
  · intro thr raw hlt
    unfold normalize
    cases hl : lookupSeverity raw.raw_severity with
    | some sev => simp [hlt]
    | none =>
      simp
      linarith
  · intro thr cthr raws e he i hi
    rcases coordinate_justification cthr (normalizeAll thr raws) e he i hi
      with ⟨s, hs, hsid⟩
    rcases List.mem_filterMap.mp hs with ⟨raw, hraw, hn⟩
    exact ⟨raw, hraw, normalize_some_conf hn, s, hn, hsid⟩

/-- Witness for C5: the fixture finding with confidence 0.3 is dropped
by normalization under the default suppression threshold 0.5. -/
theorem suppression_threshold_enforced_witness :
    normalize defaultSuppressionThreshold rawWeak = none :=
  suppression_threshold_enforced.1 defaultSuppressionThreshold rawWeak
    (by norm_num [rawWeak, defaultSuppressionThreshold])

/-- Numbering preserves the list length. -/
theorem numberEntries_length :
    ∀ (l : List Recommendation) (n : ℕ), (numberEntries n l).length = l.length := by
  intro l
  induction l with
  | nil => intro n; simp [numberEntries]
  | cons a l ih => intro n; simp [numberEntries, ih]

/-- The ranks emitted by numbering from n are n, n+1, ... with no gaps
or repeats. -/
theorem numberEntries_ranks :
    ∀ (l : List Recommendation) (n : ℕ),
      (numberEntries n l).map PlanEntry.priority_rank =
        List.range' n l.length := by
  intro l
  induction l with
  | nil => intro n; simp [numberEntries]
  | cons a l ih => intro n; simp [numberEntries, List.range'_succ, ih]

/-- Numbering preserves the action sequence. -/
theorem numberEntries_actions :
    ∀ (l : List Recommendation) (n : ℕ),
      (numberEntries n l).map PlanEntry.action =
        l.map Recommendation.action := by
  intro l
  induction l with
  | nil => intro n; simp [numberEntries]
  | cons a l ih => intro n; simp [numberEntries, ih]

/-- The actions of the merged recommendations form a sublist of the
kind enumeration used to build them. -/
theorem filterMap_mergeFor_actions_sublist (sigs : List Signal) :
    ∀ l : List ActionKind,
      ((l.filterMap (fun k => mergeFor k sigs)).map
        Recommendation.action).Sublist l := by
  intro l
  induction l with
  | nil => simp
  | cons a l ih =>
    cases h : mergeFor a sigs with
    | none =>
      simp only [List.filterMap_cons, h]
      exact ih.cons a
    | some r =>
      have ha : r.action = a := by rw [mergeFor_eq_some h]
      simp only [List.filterMap_cons, h, List.map_cons, ha]
      exact ih.cons₂ a

/-- The merge step never emits two recommendations for the same action
kind. -/
theorem mergeStep_actions_nodup (sigs : List Signal) :
    ((mergeStep sigs).map Recommendation.action).Nodup :=
  ((filterMap_mergeFor_actions_sublist sigs allActionKinds).nodup (by decide))

/-- Conflict resolution only removes recommendations: the surviving
action sequence is a sublist of the input action sequence. -/
theorem resolveConflictsFuel_actions_sublist :
    ∀ (n : ℕ) (l : List Recommendation), l.length ≤ n →
      ((resolveConflictsFuel n l).map Recommendation.action).Sublist
        (l.map Recommendation.action) := by
  intro n
  induction n with
  | zero =>
    intro l hl
    cases l with
    | nil => simp [resolveConflictsFuel]
    | cons a rest => simp at hl
  | succ n ih =>
    intro l hl
    cases l with
    | nil => simp [resolveConflictsFuel]
    | cons a rest =>
      simp only [resolveConflictsFuel, List.map_cons]
      refine List.Sublist.cons₂ _ ?_
      have hk : (rest.filter
          (fun x => x.action ∉ conflictPrecedence a.action)).length ≤ n := by
        have hle := List.length_filter_le
          (fun x => decide (x.action ∉ conflictPrecedence a.action)) rest
        simp only [List.length_cons] at hl
        omega
      exact (ih _ hk).trans ((List.filter_sublist rest).map Recommendation.action)

/-- C2: every emitted ActionPlan has pairwise distinct ActionKinds among
its entries, and its priority_rank values are exactly the contiguous
sequence 1, 2, ..., n with no gaps or repeats. -/
theorem plan_dedup_contiguous_ranks :
    ∀ (cthr : ℚ) (sigs : List Signal),
      ((coordinate cthr sigs).entries.map PlanEntry.action).Nodup ∧
      (coordinate cthr sigs).entries.map PlanEntry.priority_rank =
        List.range' 1 (coordinate cthr sigs).entries.length := by
  intro cthr sigs
  have hent : (coordinate cthr sigs).entries =
      numberEntries 1 (resolvedRecs sigs) := rfl
  constructor
  · have h0 := mergeStep_actions_nodup sigs
    have hperm : List.Perm
        ((rankStep (mergeStep sigs)).map Recommendation.action)
        ((mergeStep sigs).map Recommendation.action) :=
      (List.perm_insertionSort _ (mergeStep sigs)).map Recommendation.action
    have h1 : ((rankStep (mergeStep sigs)).map Recommendation.action).Nodup :=
      hperm.nodup_iff.mpr h0
    have h2 := (resolveConflictsFuel_actions_sublist _ _ le_rfl).nodup h1
    rw [hent, numberEntries_actions]
    exact h2
  · rw [hent, numberEntries_ranks, numberEntries_length]

/-- C4: the emitted plan carries advisory = true exactly when the
highest-ranked CRITICAL or HIGH recommendation has aggregate confidence
below the consensus threshold, and the plan is emitted either way; in
particular a top CRITICAL item of merged confidence 0.6 is advisory
under the default threshold 0.7 and one of merged confidence 0.8 is
not. -/
theorem consensus_gate_advisory :
    (∀ (cthr : ℚ) (sigs : List Signal) (r : Recommendation),
        (resolvedRecs sigs).find?
          (fun x => decide (3 ≤ sevRank x.severity)) = some r →
        ((coordinate cthr sigs).advisory = true ↔ r.confidence < cthr)) ∧
    (coordinate defaultConsensusThreshold [sigCrit (6/10)]).advisory = true ∧
    (coordinate defaultConsensusThreshold [sigCrit (8/10)]).advisory = false := by
  have hgen : ∀ (cthr : ℚ) (sigs : List Signal) (r : Recommendation),
      (resolvedRecs sigs).find?
        (fun x => decide (3 ≤ sevRank x.severity)) = some r →
      ((coordinate cthr sigs).advisory = true ↔ r.confidence < cthr) := by
    intro cthr sigs r h
    unfold coordinate
    simp only [h]
    simp
  refine ⟨hgen, ?_, ?_⟩
  · exact (hgen defaultConsensusThreshold [sigCrit (6/10)] recCrit06 rfl).mpr
      (by norm_num [recCrit06, mergedConfidence, defaultConsensusThreshold])
  · have h := hgen defaultConsensusThreshold [sigCrit (8/10)] recCrit08 rfl
    rw [Bool.eq_false_iff]
    intro htrue
    have hlt := h.mp htrue
    norm_num [recCrit08, mergedConfidence, defaultConsensusThreshold] at hlt

/-- Witness for C4: on the single-signal cycle of merged confidence 0.6
the advisory flag agrees with the below-threshold comparison. -/
theorem consensus_gate_advisory_witness :
    ((coordinate defaultConsensusThreshold [sigCrit (6/10)]).advisory = true ↔
      recCrit06.confidence < defaultConsensusThreshold) :=
  consensus_gate_advisory.1 defaultConsensusThreshold [sigCrit (6/10)]
    recCrit06 rfl

/-- Counterexample to C3 as stated: a cycle that contains both fixture
signals, the RISK REBALANCE (HIGH, 0.9) and the MEV
EMERGENCY_STOP (CRITICAL, 0.95), but also a CRITICAL
BLOCK_TRANSACTION signal of confidence 0.99; the emitted plan does not
rank EMERGENCY_STOP first. -/
theorem conflict_claim_counterexample :
    (sigRisk "risk-1:snap-1" 0 ∈ cexCycle ∧
      sigMev "mev-1:snap-1" 0 ∈ cexCycle) ∧
    ((coordinate defaultConsensusThreshold cexCycle).entries.head?).map
        PlanEntry.action ≠ some ActionKind.EMERGENCY_STOP := by
  have h1 : mergeStep cexCycle = [recMev95, recMev99, recRisk90] := rfl
  have hb1 : recBefore recMev95 recMev99 = false := by
    norm_num [recBefore, recMev95, recMev99, sevRank, mergedConfidence]
  have hb2 : recBefore recMev95 recRisk90 = true := by
    norm_num [recBefore, recMev95, recRisk90, sevRank]
  have hb3 : recBefore recMev99 recRisk90 = true := by
    norm_num [recBefore, recMev99, recRisk90, sevRank]
  have h2 : rankStep [recMev95, recMev99, recRisk90] =
      [recMev99, recMev95, recRisk90] := by
    simp [rankStep, List.insertionSort, List.orderedInsert, hb1, hb2, hb3]
  have hE : (coordinate defaultConsensusThreshold cexCycle).entries =
      [{ action := .BLOCK_TRANSACTION, priority_rank := 1,
         justification := ["mev-2:snap-1"] },
       { action := .EMERGENCY_STOP, priority_rank := 2,
         justification := ["mev-1:snap-1", "risk-1:snap-1"] }] := by
    have hent : (coordinate defaultConsensusThreshold cexCycle).entries =
        numberEntries 1 (resolveConflicts (rankStep (mergeStep cexCycle))) := rfl
    rw [hent, h1, h2]
    rfl
  refine ⟨⟨by simp [cexCycle], by simp [cexCycle]⟩, ?_⟩
  rw [hE]
  simp

/-- C3 amended: for a cycle whose signals are exactly the RISK
REBALANCE signal (HIGH, 0.9) and the MEV EMERGENCY_STOP
signal (CRITICAL, 0.95), in either order and with any ids, timestamps
and threshold, the plan ranks EMERGENCY_STOP first, contains no
REBALANCE entry, and the dropped signal's id appears in the
EMERGENCY_STOP entry's justification. -/
theorem conflict_precedence_two_signal_cycle :
    ∀ (i1 i2 : String) (t1 t2 : ℕ) (cthr : ℚ) (sigs : List Signal),
      (sigs = [sigRisk i1 t1, sigMev i2 t2] ∨
        sigs = [sigMev i2 t2, sigRisk i1 t1]) →
      ((coordinate cthr sigs).entries.head? = some
        { action := .EMERGENCY_STOP, priority_rank := 1,
          justification := [i2, i1] }) ∧
      (∀ e ∈ (coordinate cthr sigs).entries,
        e.action ≠ ActionKind.REBALANCE) ∧
      (∃ e, (coordinate cthr sigs).entries.head? = some e ∧
        i1 ∈ e.justification) := by
  intro i1 i2 t1 t2 cthr sigs h
  have hE : (coordinate cthr sigs).entries =
      [{ action := .EMERGENCY_STOP, priority_rank := 1,
         justification := [i2, i1] }] := by
    rcases h with rfl | rfl <;> rfl
  refine ⟨by rw [hE]; rfl, ?_, ?_⟩
  · intro e he
    rw [hE] at he
    simp at he
    subst he
    simp
  · exact ⟨{ action := .EMERGENCY_STOP, priority_rank := 1,
             justification := [i2, i1] },
      by rw [hE]; rfl, by simp⟩

/-- Witness for C3 amended: the concrete two-signal cycle with the
fixture ids and the default threshold. -/
theorem conflict_precedence_two_signal_cycle_witness :
    ((coordinate defaultConsensusThreshold
        [sigRisk "risk-1:snap-1" 0, sigMev "mev-1:snap-1" 1]).entries.head? =
      some { action := .EMERGENCY_STOP, priority_rank := 1,
             justification := ["mev-1:snap-1", "risk-1:snap-1"] }) ∧
    (∀ e ∈ (coordinate defaultConsensusThreshold
        [sigRisk "risk-1:snap-1" 0, sigMev "mev-1:snap-1" 1]).entries,
      e.action ≠ ActionKind.REBALANCE) ∧
    (∃ e, (coordinate defaultConsensusThreshold
        [sigRisk "risk-1:snap-1" 0, sigMev "mev-1:snap-1" 1]).entries.head? =
        some e ∧ "risk-1:snap-1" ∈ e.justification) :=
  conflict_precedence_two_signal_cycle "risk-1:snap-1" "mev-1:snap-1" 0 1
    defaultConsensusThreshold _ (Or.inl rfl)

end DefiGuardian
